import Mathlib

/-!
Verification of trampolino's declarative command-line wrappers
(src/trampolino/workflows/interfaces/mrtrix3/preprocess.py) and its click
CLI (src/trampolino/cli.py).

The wrapper classes are nipype `CommandLine` interfaces: each input field
declares an `argstr` (a %-format string), an optional `position`, and
optional metadata (`mandatory`, `xor`, `usedefault`, `sep`,
`name_template`/`name_source`/`keep_extension`).  The command line is
assembled by nipype's `_parse_inputs`: defined inputs are visited in
alphabetical field order; fields with a non-negative `position` come
first (sorted by position), then the fields without a position (in the
alphabetical visiting order), then the fields with a negative `position`
(sorted by position).  The resulting argument strings are joined with
single spaces after the `_cmd` binary name.  The doctests embedded in
the repository's own source pin these semantics down for every wrapper.
-/

/-- Substitute the `%s`/`%d` placeholders of a Python %-format string
with the given rendered values, in order. -/
def substPercents : List Char → List String → List Char
  | [], _ => []
  | '%' :: c :: rest, v :: vs =>
      if c = 's' ∨ c = 'd' then v.toList ++ substPercents rest vs
      else '%' :: c :: substPercents rest (v :: vs)
  | c :: rest, vs => c :: substPercents rest vs

/-- Render an `argstr` by filling its placeholders with the given values. -/
def formatArgstr (argstr : String) (vals : List String) : String :=
  String.mk (substPercents argstr.toList vals)

/-- Split a filename at its last dot: `"dwi.mif" ↦ ("dwi", ".mif")`;
a name without a dot keeps an empty extension. -/
def splitExt (f : String) : String × String :=
  let r := f.toList.reverse
  match r.findIdx? (· = '.') with
  | none => (f, "")
  | some i =>
      (String.mk ((r.drop (i + 1)).reverse), String.mk ((r.take (i + 1)).reverse))

/-- Default filename generated from a `name_source` input through a
`name_template` such as `"%s_denoised"`, with `keep_extension=True`:
the template is applied to the source's base name and the source's
extension is re-appended (nipype `_filename_from_source`). -/
def filenameFromSource (template source : String) : String :=
  let (base, ext) := splitExt source
  formatArgstr template [base] ++ ext

/-- Strict lexicographic order on character lists, comparing code points
(Python's `sorted` on ASCII field names). -/
def charListLt : List Char → List Char → Bool
  | [], [] => false
  | [], _ :: _ => true
  | _ :: _, [] => false
  | a :: as, b :: bs =>
      if a.toNat < b.toNat then true
      else if b.toNat < a.toNat then false
      else charListLt as bs

/-- Strict lexicographic order on strings. -/
def strLt (a b : String) : Bool := charListLt a.toList b.toList

/-- One rendered command-line argument together with the field's name and
declared `position`, as collected by nipype's `_parse_inputs`. -/
structure Arg where
  name : String
  pos : Option Int
  text : String
deriving Repr, DecidableEq

/-- Insert into a list sorted by `le` (insertion sort step). -/
def insertBy (le : Arg → Arg → Bool) (x : Arg) : List Arg → List Arg
  | [] => [x]
  | y :: ys => if le x y then x :: y :: ys else y :: insertBy le x ys

/-- Insertion sort by `le`. -/
def sortBy (le : Arg → Arg → Bool) : List Arg → List Arg
  | [] => []
  | x :: xs => insertBy le x (sortBy le xs)

/-- nipype `_parse_inputs` ordering: arguments with a non-negative
`position` first (sorted by position), then arguments without a position
(sorted by field name, since `_parse_inputs` visits fields in sorted name
order), then arguments with a negative `position` (sorted by position). -/
def assembleArgs (args : List Arg) : List String :=
  let first := args.filter fun a => match a.pos with
    | some p => decide (0 ≤ p)
    | none => false
  let middle := args.filter fun a => a.pos.isNone
  let last := args.filter fun a => match a.pos with
    | some p => decide (p < 0)
    | none => false
  let byPos : Arg → Arg → Bool := fun a b =>
    (a.pos.getD 0) ≤ (b.pos.getD 0)
  let byName : Arg → Arg → Bool := fun a b => !(strLt b.name a.name)
  ((sortBy byPos first) ++ (sortBy byName middle) ++ (sortBy byPos last)).map (·.text)

/-- Join the binary name and the assembled arguments with spaces, as
nipype's `cmdline` property does. -/
def joinCmdline (cmd : String) (args : List Arg) : String :=
  String.intercalate " " (cmd :: assembleArgs args)

theorem insertBy_mem (le : Arg → Arg → Bool) (x a : Arg) (l : List Arg) :
    a ∈ insertBy le x l ↔ a = x ∨ a ∈ l := by
  induction l with
  | nil => simp [insertBy]
  | cons y ys ih =>
      simp only [insertBy]
      split
      · simp [List.mem_cons]
      · simp [List.mem_cons, ih]
        tauto

theorem sortBy_mem (le : Arg → Arg → Bool) (a : Arg) (l : List Arg) :
    a ∈ sortBy le l ↔ a ∈ l := by
  induction l with
  | nil => simp [sortBy]
  | cons x xs ih => simp [sortBy, insertBy_mem, ih]

/-- Sorting the three position groups permutes the rendered arguments, so
every defined input's rendered text appears in the assembled argv. -/
theorem assembleArgs_mem (args : List Arg) (a : Arg) (h : a ∈ args) :
    a.text ∈ assembleArgs args := by
  simp only [assembleArgs, List.map_append, List.mem_append, List.mem_map,
    sortBy_mem, List.mem_filter]
  match hp : a.pos with
  | none => exact Or.inl (Or.inr ⟨a, ⟨h, by simp [hp]⟩, rfl⟩)
  | some p =>
      rcases le_or_lt 0 p with hle | hlt
      · exact Or.inl (Or.inl ⟨a, ⟨h, by simp [hp, hle]⟩, rfl⟩)
      · exact Or.inr ⟨a, ⟨h, by simp [hp, hlt]⟩, rfl⟩

/-! ## DWIDenoise (preprocess.py, `DWIDenoiseInputSpec` / `DWIDenoise`) -/

/-- Inputs of `DWIDenoiseInputSpec`.  `in_file` is mandatory; the other
fields are optional.  `noise` and `out_file` carry
`name_template`/`name_source='in_file'` with `keep_extension=True`, so
they are auto-generated from `in_file` when unset.  Fields inherited
from `MRTrix3BaseInputSpec` are left unset here (its `base.py` is not
among the sources); none of the claims about this wrapper sets them. -/
structure DWIDenoiseInputs where
  in_file : String
  mask : Option String := none
  extent : Option (Int × Int × Int) := none
  noise : Option String := none
  out_file : Option String := none

/-- The `_cmd` attribute of the `DWIDenoise` wrapper. -/
def DWIDenoise.cmd : String := "dwidenoise"

/-- Rendered argument list of `DWIDenoise`, one `Arg` per defined input,
with the `argstr` and `position` declared in `DWIDenoiseInputSpec`. -/
def DWIDenoise.args (i : DWIDenoiseInputs) : List Arg :=
  [⟨"in_file", some (-2), formatArgstr "%s" [i.in_file]⟩]
  ++ (match i.mask with
      | some m => [⟨"mask", some 1, formatArgstr "-mask %s" [m]⟩]
      | none => [])
  ++ (match i.extent with
      | some (a, b, c) =>
          [⟨"extent", none,
            formatArgstr "-extent %d,%d,%d" [toString a, toString b, toString c]⟩]
      | none => [])
  ++ [⟨"noise", none,
        formatArgstr "-noise %s" [i.noise.getD (filenameFromSource "%s_noise" i.in_file)]⟩]
  ++ [⟨"out_file", some (-1),
        formatArgstr "%s" [i.out_file.getD (filenameFromSource "%s_denoised" i.in_file)]⟩]

/-- Command line of the `DWIDenoise` wrapper. -/
def DWIDenoise.cmdline (i : DWIDenoiseInputs) : String :=
  joinCmdline DWIDenoise.cmd (DWIDenoise.args i)

/-- C1: with in_file, mask and noise set, DWIDenoise builds exactly the
command line of its doctest: mask and noise rendered as `-mask`/`-noise`
options, in_file second-to-last, and out_file defaulting to the in_file
name with suffix `_denoised` and the same extension, placed last. -/
theorem C1_dwidenoise_cmdline :
    DWIDenoise.cmdline
      { in_file := "dwi.mif", mask := some "mask.mif", noise := some "noise.mif" }
      = "dwidenoise -mask mask.mif -noise noise.mif dwi.mif dwi_denoised.mif" := rfl

/-! ## MRDeGibbs (preprocess.py, `MRDeGibbsInputSpec` / `MRDeGibbs`) -/

/-- Inputs of `MRDeGibbsInputSpec`.  `in_file` is mandatory; `axes`,
`nshifts`, `minW` and `maxW` carry `usedefault=True` with default values
`[0, 1]`, `20`, `1` and `3`, so they are always defined; `out_file` has
`name_template='%s_unr'`, `name_source='in_file'`, `keep_extension=True`. -/
structure MRDeGibbsInputs where
  in_file : String
  axes : List Int := [0, 1]
  nshifts : Int := 20
  minW : Int := 1
  maxW : Int := 3
  out_file : Option String := none

/-- The `_cmd` attribute of the `MRDeGibbs` wrapper. -/
def MRDeGibbs.cmd : String := "mrdegibbs"

/-- Rendered argument list of `MRDeGibbs`, with the `argstr`, `sep` and
`position` declared in `MRDeGibbsInputSpec`. -/
def MRDeGibbs.args (i : MRDeGibbsInputs) : List Arg :=
  [⟨"in_file", some (-2), formatArgstr "%s" [i.in_file]⟩,
   ⟨"axes", none,
     formatArgstr "-axes %s" [String.intercalate "," (i.axes.map toString)]⟩,
   ⟨"nshifts", none, formatArgstr "-nshifts %d" [toString i.nshifts]⟩,
   ⟨"minW", none, formatArgstr "-minW %d" [toString i.minW]⟩,
   ⟨"maxW", none, formatArgstr "-maxW %d" [toString i.maxW]⟩,
   ⟨"out_file", some (-1),
     formatArgstr "%s" [i.out_file.getD (filenameFromSource "%s_unr" i.in_file)]⟩]

/-- Command line of the `MRDeGibbs` wrapper. -/
def MRDeGibbs.cmdline (i : MRDeGibbsInputs) : String :=
  joinCmdline MRDeGibbs.cmd (MRDeGibbs.args i)

/-- C3: with only in_file set, MRDeGibbs applies the defaults axes=[0,1],
nshifts=20, minW=1, maxW=3 and builds exactly
`mrdegibbs -axes 0,1 -maxW 3 -minW 1 -nshifts 20 dwi.mif dwi_unr.mif`,
the output file defaulting to the input name with suffix `_unr`. -/
theorem C3_mrdegibbs_defaults :
    (({ in_file := "dwi.mif" } : MRDeGibbsInputs).axes = [0, 1]
      ∧ ({ in_file := "dwi.mif" } : MRDeGibbsInputs).nshifts = 20
      ∧ ({ in_file := "dwi.mif" } : MRDeGibbsInputs).minW = 1
      ∧ ({ in_file := "dwi.mif" } : MRDeGibbsInputs).maxW = 3)
    ∧ MRDeGibbs.cmdline { in_file := "dwi.mif" }
        = "mrdegibbs -axes 0,1 -maxW 3 -minW 1 -nshifts 20 dwi.mif dwi_unr.mif" :=
  ⟨⟨rfl, rfl, rfl, rfl⟩, rfl⟩

/-! ## DWIBiasCorrect (preprocess.py, `DWIBiasCorrectInputSpec` / `DWIBiasCorrect`) -/

/-- Inputs of `DWIBiasCorrectInputSpec`.  `in_file` is mandatory;
`use_ants` and `use_fsl` are Bool traits, each `mandatory=True` with the
other in its `xor` list; `out_file` has `name_template='%s_biascorr'`,
`name_source='in_file'`, `keep_extension=True`. -/
structure DWIBiasCorrectInputs where
  in_file : String
  in_mask : Option String := none
  use_ants : Option Bool := none
  use_fsl : Option Bool := none
  bias : Option String := none
  out_file : Option String := none

/-- The `_cmd` attribute of the `DWIBiasCorrect` wrapper. -/
def DWIBiasCorrect.cmd : String := "dwibiascorrect"

/-- Render a Bool trait whose `argstr` has no placeholder: nipype emits
the bare `argstr` when the value is True and nothing when it is False. -/
def boolArg (name argstr : String) : Option Bool → List Arg
  | some true => [⟨name, none, argstr⟩]
  | _ => []

/-- Rendered argument list of `DWIBiasCorrect`, assuming the
mandatory/xor checks have passed. -/
def DWIBiasCorrect.args (i : DWIBiasCorrectInputs) : List Arg :=
  [⟨"in_file", some (-2), formatArgstr "%s" [i.in_file]⟩]
  ++ (match i.in_mask with
      | some m => [⟨"in_mask", none, formatArgstr "-mask %s" [m]⟩]
      | none => [])
  ++ boolArg "use_ants" "-ants" i.use_ants
  ++ boolArg "use_fsl" "-fsl" i.use_fsl
  ++ (match i.bias with
      | some b => [⟨"bias", none, formatArgstr "-bias %s" [b]⟩]
      | none => [])
  ++ [⟨"out_file", some (-1),
        formatArgstr "%s" [i.out_file.getD (filenameFromSource "%s_biascorr" i.in_file)]⟩]

/-- Argument list of `DWIBiasCorrect` with nipype's checks on the
`use_ants`/`use_fsl` pair: setting both raises a TraitError (each names
the other in `xor`), and leaving both unset fails the mandatory-input
check (a mandatory input may only be missing when one of its `xor`
partners is set), so command construction errors in either case. -/
def DWIBiasCorrect.cmdArgs (i : DWIBiasCorrectInputs) : Except String (List String) :=
  if i.use_ants.isSome ∧ i.use_fsl.isSome then
    Except.error "TraitError: use_ants and use_fsl are mutually exclusive"
  else if i.use_ants.isNone ∧ i.use_fsl.isNone then
    Except.error "ValueError: a mandatory input of the xor group is not set"
  else
    Except.ok (assembleArgs (DWIBiasCorrect.args i))

/-- Command line of the `DWIBiasCorrect` wrapper. -/
def DWIBiasCorrect.cmdline (i : DWIBiasCorrectInputs) : Except String String :=
  (DWIBiasCorrect.cmdArgs i).map fun args =>
    String.intercalate " " (DWIBiasCorrect.cmd :: args)

/-- Holds when the `Except` result is an error. -/
def exceptIsError : Except String (List String) → Bool
  | Except.error _ => true
  | Except.ok _ => false

/-- The `Except` result succeeded and its argument list contains `s`. -/
def okContains (r : Except String (List String)) (s : String) : Prop :=
  match r with
  | Except.ok args => s ∈ args
  | Except.error _ => False

/-- C4: DWIBiasCorrect's use_ants/use_fsl are mutually exclusive and
mandatory: with exactly one of them set to True the command builds and
contains `-ants` (respectively `-fsl`); with both set, or neither set,
command construction fails. -/
theorem C4_dwibiascorrect_xor (i : DWIBiasCorrectInputs) :
    (i.use_ants = some true → i.use_fsl = none →
      okContains (DWIBiasCorrect.cmdArgs i) "-ants")
    ∧ (i.use_fsl = some true → i.use_ants = none →
      okContains (DWIBiasCorrect.cmdArgs i) "-fsl")
    ∧ (i.use_ants.isSome → i.use_fsl.isSome →
      exceptIsError (DWIBiasCorrect.cmdArgs i) = true)
    ∧ (i.use_ants = none → i.use_fsl = none →
      exceptIsError (DWIBiasCorrect.cmdArgs i) = true) := by
  obtain ⟨f, mk, ua, uf, b, o⟩ := i
  refine ⟨?_, ?_, ?_, ?_⟩
  · rintro rfl rfl
    show "-ants" ∈ assembleArgs (DWIBiasCorrect.args ⟨f, mk, some true, none, b, o⟩)
    exact assembleArgs_mem _ ⟨"use_ants", none, "-ants"⟩
      (by cases mk <;> cases b <;> simp [DWIBiasCorrect.args, boolArg])
  · rintro rfl rfl
    show "-fsl" ∈ assembleArgs (DWIBiasCorrect.args ⟨f, mk, none, some true, b, o⟩)
    exact assembleArgs_mem _ ⟨"use_fsl", none, "-fsl"⟩
      (by cases mk <;> cases b <;> simp [DWIBiasCorrect.args, boolArg])
  · intro h1 h2
    simp [DWIBiasCorrect.cmdArgs, h1, h2, exceptIsError]
  · rintro rfl rfl
    simp [DWIBiasCorrect.cmdArgs, exceptIsError]

/-- Witness for C4 at concrete inputs: use_ants alone yields `-ants` in
the arguments (and the doctest command line), use_fsl alone yields
`-fsl`, and both-set or neither-set fail. -/
theorem C4_dwibiascorrect_xor_witness :
    okContains (DWIBiasCorrect.cmdArgs { in_file := "dwi.mif", use_ants := some true }) "-ants"
    ∧ okContains (DWIBiasCorrect.cmdArgs { in_file := "dwi.mif", use_fsl := some true }) "-fsl"
    ∧ exceptIsError (DWIBiasCorrect.cmdArgs
        { in_file := "dwi.mif", use_ants := some true, use_fsl := some true }) = true
    ∧ exceptIsError (DWIBiasCorrect.cmdArgs { in_file := "dwi.mif" }) = true
    ∧ DWIBiasCorrect.cmdline { in_file := "dwi.mif", use_ants := some true }
        = Except.ok "dwibiascorrect -ants dwi.mif dwi_biascorr.mif" :=
  ⟨(C4_dwibiascorrect_xor { in_file := "dwi.mif", use_ants := some true }).1 rfl rfl,
   (C4_dwibiascorrect_xor { in_file := "dwi.mif", use_fsl := some true }).2.1 rfl rfl,
   (C4_dwibiascorrect_xor
      { in_file := "dwi.mif", use_ants := some true, use_fsl := some true }).2.2.1
      rfl rfl,
   (C4_dwibiascorrect_xor { in_file := "dwi.mif" }).2.2.2 rfl rfl,
   rfl⟩

/-! ## ResponseSD (preprocess.py, `ResponseSDInputSpec` / `ResponseSD`) -/

/-- Inputs of `ResponseSDInputSpec`.  `algorithm` (an enum over
msmt_5tt/dhollander/tournier/tax) and `in_file` are mandatory; `wm_file`
has `usedefault=True` with default `'wm.txt'`; `max_sh` is a list of
ints rendered with `sep=','`.

Modelled from the spec: the field `grad_fsl` comes from
`MRTrix3BaseInputSpec`, whose defining file (`.base`) is absent from the
repository sources; per the wrapper doctest in the sources it is a pair
of paths rendered as `-fslgrad <bvecs> <bvals>` with no position. -/
structure ResponseSDInputs where
  algorithm : String
  in_file : String
  mtt_file : Option String := none
  wm_file : String := "wm.txt"
  gm_file : Option String := none
  csf_file : Option String := none
  in_mask : Option String := none
  max_sh : Option (List Int) := none
  grad_fsl : Option (String × String) := none

/-- Modelled from the spec: the file defining `MRTrix3BaseInputSpec`
(imported as `.base`) is absent from the repository sources, so the
`argstr` of its inherited `grad_fsl` field is missing.  Per the spec,
each wrapper "describes how to translate a set of typed parameters into
a command-line invocation of an external binary"; the in-source doctest
of ResponseSD shows the grad_fsl pair rendered as
`-fslgrad <bvecs> <bvals>` with no position. -/
def grad_fsl_argstr : String := "-fslgrad %s %s"

/-- The `_cmd` attribute of the `ResponseSD` wrapper. -/
def ResponseSD.cmd : String := "dwi2response"

/-- Rendered argument list of `ResponseSD`, with the `argstr`, `sep` and
`position` declared in `ResponseSDInputSpec` (and `grad_fsl` as above). -/
def ResponseSD.args (i : ResponseSDInputs) : List Arg :=
  [⟨"algorithm", some 1, formatArgstr "%s" [i.algorithm]⟩,
   ⟨"in_file", some (-5), formatArgstr "%s" [i.in_file]⟩]
  ++ (match i.mtt_file with
      | some m => [⟨"mtt_file", some (-4), formatArgstr "%s" [m]⟩]
      | none => [])
  ++ [⟨"wm_file", some (-3), formatArgstr "%s" [i.wm_file]⟩]
  ++ (match i.gm_file with
      | some g => [⟨"gm_file", some (-2), formatArgstr "%s" [g]⟩]
      | none => [])
  ++ (match i.csf_file with
      | some c => [⟨"csf_file", some (-1), formatArgstr "%s" [c]⟩]
      | none => [])
  ++ (match i.in_mask with
      | some m => [⟨"in_mask", none, formatArgstr "-mask %s" [m]⟩]
      | none => [])
  ++ (match i.max_sh with
      | some l =>
          [⟨"max_sh", none,
            formatArgstr "-lmax %s" [String.intercalate "," (l.map toString)]⟩]
      | none => [])
  ++ (match i.grad_fsl with
      | some (bvecs, bvals) =>
          [⟨"grad_fsl", none, formatArgstr grad_fsl_argstr [bvecs, bvals]⟩]
      | none => [])

/-- Command line of the `ResponseSD` wrapper. -/
def ResponseSD.cmdline (i : ResponseSDInputs) : String :=
  joinCmdline ResponseSD.cmd (ResponseSD.args i)

/-- C6: a max_sh list [6,8,10] is rendered as the single comma-separated
option `-lmax 6,8,10`, placed before the positional arguments, giving
the doctest command line for algorithm tournier with grad_fsl set. -/
theorem C6_responsesd_lmax :
    ResponseSD.cmdline
      { algorithm := "tournier", in_file := "dwi.mif",
        grad_fsl := some ("bvecs", "bvals"), max_sh := some [6, 8, 10] }
      = "dwi2response tournier -fslgrad bvecs bvals -lmax 6,8,10 dwi.mif wm.txt" := rfl

/-- Python os.path.abspath relative to a working directory: an absolute path
is returned as is, a relative one is joined to the working directory
(path normalization is not modelled; none of the paths involved needs it). -/
def abspath (cwd p : String) : String :=
  if p.startsWith "/" then p else cwd ++ "/" ++ p

/-- ResponseSD._list_outputs: starts from the empty outputs record,
always sets `wm_file` to the absolute path of the `wm_file` input, and
sets `gm_file` (resp. `csf_file`) to the absolute path of the
corresponding input only when that input is defined.  The outputs record
is modelled as an association list of output names to paths. -/
def ResponseSD.listOutputs (cwd : String) (i : ResponseSDInputs) : List (String × String) :=
  let outputs : List (String × String) := []
  let outputs := outputs ++ [("wm_file", abspath cwd i.wm_file)]
  let outputs := match i.gm_file with
    | some g => outputs ++ [("gm_file", abspath cwd g)]
    | none => outputs
  let outputs := match i.csf_file with
    | some c => outputs ++ [("csf_file", abspath cwd c)]
    | none => outputs
  outputs

/-- C5: after a ResponseSD invocation the located outputs are: wm_file
always present and equal to the absolute path of the wm_file input
(whose default is 'wm.txt'), and gm_file (resp. csf_file) present and
equal to the absolute path of the corresponding input exactly when that
input was given, absent otherwise. -/
theorem C5_responsesd_outputs (cwd : String) (i : ResponseSDInputs) :
    (ResponseSD.listOutputs cwd i).lookup "wm_file" = some (abspath cwd i.wm_file)
    ∧ (ResponseSD.listOutputs cwd i).lookup "gm_file" = i.gm_file.map (abspath cwd)
    ∧ (ResponseSD.listOutputs cwd i).lookup "csf_file" = i.csf_file.map (abspath cwd)
    ∧ ({ algorithm := i.algorithm, in_file := i.in_file } : ResponseSDInputs).wm_file
        = "wm.txt" := by
  obtain ⟨alg, f, mtt, wm, gm, csf, mask, sh, grad⟩ := i
  refine ⟨?_, ?_, ?_, rfl⟩ <;>
    cases gm <;> cases csf <;>
      simp [ResponseSD.listOutputs, List.lookup]

/-! ## ACTPrepareFSL (preprocess.py, `ACTPrepareFSLInputSpec` / `ACTPrepareFSL`) -/

/-- Inputs of `ACTPrepareFSLInputSpec`: `in_file` mandatory at position
-2; `out_file` mandatory with `usedefault=True`, default `'act_5tt.mif'`,
at position -1. -/
structure ACTPrepareFSLInputs where
  in_file : String
  out_file : String := "act_5tt.mif"

/-- The `_cmd` attribute of the `ACTPrepareFSL` wrapper. -/
def ACTPrepareFSL.cmd : String := "act_anat_prepare_fsl"

/-- Rendered argument list of `ACTPrepareFSL`. -/
def ACTPrepareFSL.args (i : ACTPrepareFSLInputs) : List Arg :=
  [⟨"in_file", some (-2), formatArgstr "%s" [i.in_file]⟩,
   ⟨"out_file", some (-1), formatArgstr "%s" [i.out_file]⟩]

/-- Command line of the `ACTPrepareFSL` wrapper. -/
def ACTPrepareFSL.cmdline (i : ACTPrepareFSLInputs) : String :=
  joinCmdline ACTPrepareFSL.cmd (ACTPrepareFSL.args i)

/-- C7: each wrapper delegates to the fixed external binary named by its
`_cmd` attribute — dwidenoise, mrdegibbs, dwibiascorrect, dwi2response,
act_anat_prepare_fsl — every command line starts with that binary name,
and ACTPrepareFSL produces the 5tt output 'act_5tt.mif' by default. -/
theorem C7_wrapper_cmds :
    DWIDenoise.cmd = "dwidenoise"
    ∧ MRDeGibbs.cmd = "mrdegibbs"
    ∧ DWIBiasCorrect.cmd = "dwibiascorrect"
    ∧ ResponseSD.cmd = "dwi2response"
    ∧ ACTPrepareFSL.cmd = "act_anat_prepare_fsl"
    ∧ ({ in_file := "T1.nii.gz" } : ACTPrepareFSLInputs).out_file = "act_5tt.mif"
    ∧ ACTPrepareFSL.cmdline { in_file := "T1.nii.gz" }
        = "act_anat_prepare_fsl T1.nii.gz act_5tt.mif" :=
  ⟨rfl, rfl, rfl, rfl, rfl, rfl, rfl⟩

/-! ## The click CLI (src/trampolino/cli.py)

`cli` is a `click.group(chain=True, invoke_without_command=True)` with
six options; its body stores the options into the shared context dict
`ctx.obj` and creates the DataSink node.  The registered subcommands are
`recon` (`dw_recon`), `track` (`odf_track`) and `filter` (`tck_filter`).
The context dict is modelled as a structure with one field per key the
code uses; each subcommand's effect on the context is modelled as a pure
state transformer, and the workflow-graph runs (`wf.run()`) as the
external calls they are. -/

/-- The shared click context object `ctx.obj` together with the DataSink
node configuration stored under `ctx.obj['results']`. -/
structure CliCtx where
  in_file : Option String
  bvec : Option String
  bval : Option String
  anat : Option String
  odf : Option String
  seed : Option String
  results_base_directory : String
  results_container : String
  tck : Option String := none

/-- The chain=True flag of the click group. -/
def cliChain : Bool := true

/-- The names of the subcommands registered on the group, in source
order: `@cli.command('recon')`, `@cli.command('track')`,
`@cli.command('filter')`. -/
def cliSubcommands : List String := ["recon", "track", "filter"]

/-- The `cli` group body: stores the six options into `ctx.obj` and
creates the DataSink with `base_directory="/Users/bsms9gep/"` and
`container="tramp"` under `ctx.obj['results']`. -/
def cli (in_file bvec bval anat odf seed : Option String) : CliCtx :=
  { in_file := in_file, bvec := bvec, bval := bval, anat := anat,
    odf := odf, seed := seed,
    results_base_directory := "/Users/bsms9gep/",
    results_container := "tramp" }

/-- Effect of `dw_recon` (the `recon` subcommand): after running the sample
workflow, it unconditionally sets `ctx.obj['odf']` to
`/Users/bsms9gep/tramp/wm.mif` and sets `ctx.obj['seed']` to
`/Users/bsms9gep/tramp/brainmask.mif` only when it is `None`. -/
def dw_recon (ctx : CliCtx) : CliCtx :=
  { ctx with
    odf := some "/Users/bsms9gep/tramp/wm.mif",
    seed := match ctx.seed with
      | none => some "/Users/bsms9gep/tramp/brainmask.mif"
      | some s => some s }

/-- The tractography node configuration built by the `track` subcommand. -/
structure TractographyNode where
  in_file : Option String
  seed_image : Option String

/-- Effect of `odf_track` (the `track` subcommand): builds a Tractography node
whose `in_file` is `ctx.obj['odf']` and whose `seed_image` is
`ctx.obj['seed']`, runs the workflow, and records
`ctx.obj['tck'] = /Users/bsms9gep/tramp/tracking.tck`. -/
def odf_track (ctx : CliCtx) : TractographyNode × CliCtx :=
  ({ in_file := ctx.odf, seed_image := ctx.seed },
   { ctx with tck := some "/Users/bsms9gep/tramp/tracking.tck" })

/-- Does the first character list lead (begin) the second? -/
def charListLeads : List Char → List Char → Bool
  | [], _ => true
  | _ :: _, [] => false
  | a :: as, b :: bs => a.toNat == b.toNat && charListLeads as bs

/-- Predicate `strUnder dir p`: the path `p` lies under the directory `dir`
(that is, `p` begins with `dir`). -/
def strUnder (dir p : String) : Bool := charListLeads dir.toList p.toList

set_option linter.unusedVariables false in
/-- Effect of `tck_filter` (the `filter` subcommand): its body is `pass`, so it
performs no external call and returns the context unchanged whatever the
`--tck` option holds. -/
def tck_filter (ctx : CliCtx) (tck : Option String) : CliCtx := ctx

/-- C2: the group defines exactly the three chained subcommands recon,
track and filter; recon stores an ODF path under ctx.obj['odf'] and a
seed path under ctx.obj['seed'], and a subsequent track reads exactly
those two entries as the tractography node's in_file and seed_image. -/
theorem C2_cli_chaining (ctx : CliCtx) :
    cliSubcommands = ["recon", "track", "filter"]
    ∧ cliChain = true
    ∧ (dw_recon ctx).odf = some "/Users/bsms9gep/tramp/wm.mif"
    ∧ ((dw_recon ctx).seed).isSome = true
    ∧ (odf_track (dw_recon ctx)).1.in_file = (dw_recon ctx).odf
    ∧ (odf_track (dw_recon ctx)).1.seed_image = (dw_recon ctx).seed := by
  refine ⟨rfl, rfl, rfl, ?_, rfl, rfl⟩
  cases h : ctx.seed <;> simp [dw_recon, h]

/-- C8: recon unconditionally overwrites ctx.obj['odf'] with
/Users/bsms9gep/tramp/wm.mif (discarding any user-supplied --odf value),
overwrites ctx.obj['seed'] with /Users/bsms9gep/tramp/brainmask.mif only
when it was None, and leaves a user-supplied --seed value unchanged. -/
theorem C8_recon_overwrites (ctx : CliCtx) :
    (dw_recon ctx).odf = some "/Users/bsms9gep/tramp/wm.mif"
    ∧ (ctx.seed = none →
        (dw_recon ctx).seed = some "/Users/bsms9gep/tramp/brainmask.mif")
    ∧ (∀ s, ctx.seed = some s → (dw_recon ctx).seed = some s) := by
  refine ⟨rfl, ?_, ?_⟩
  · intro h
    simp [dw_recon, h]
  · intro s h
    simp [dw_recon, h]

/-- Witness for C8: with --odf supplied as my_odf.mif, recon still
records wm.mif; a defaulted seed becomes brainmask.mif while a
user-supplied --seed my_seed.mif survives recon unchanged. -/
theorem C8_recon_overwrites_witness :
    (dw_recon (cli none none none none (some "my_odf.mif") none)).odf
        = some "/Users/bsms9gep/tramp/wm.mif"
    ∧ (dw_recon (cli none none none none (some "my_odf.mif") none)).seed
        = some "/Users/bsms9gep/tramp/brainmask.mif"
    ∧ (dw_recon (cli none none none none none (some "my_seed.mif"))).seed
        = some "my_seed.mif" :=
  ⟨(C8_recon_overwrites (cli none none none none (some "my_odf.mif") none)).1,
   (C8_recon_overwrites (cli none none none none (some "my_odf.mif") none)).2.1 rfl,
   (C8_recon_overwrites (cli none none none none none (some "my_seed.mif"))).2.2
     "my_seed.mif" rfl⟩

/-- C9: for every CLI invocation the DataSink created at group setup
uses the fixed base directory /Users/bsms9gep/ with container tramp,
regardless of the options, and the paths recon and track record in the
context (wm.mif, the defaulted brainmask.mif seed, tracking.tck) all lie
under /Users/bsms9gep/tramp. -/
theorem C9_fixed_datasink (i v b a o s : Option String) :
    (cli i v b a o s).results_base_directory = "/Users/bsms9gep/"
    ∧ (cli i v b a o s).results_container = "tramp"
    ∧ (dw_recon (cli i v b a o s)).odf = some "/Users/bsms9gep/tramp/wm.mif"
    ∧ (s = none →
        (dw_recon (cli i v b a o s)).seed = some "/Users/bsms9gep/tramp/brainmask.mif")
    ∧ (odf_track (dw_recon (cli i v b a o s))).2.tck
        = some "/Users/bsms9gep/tramp/tracking.tck"
    ∧ strUnder "/Users/bsms9gep/tramp" "/Users/bsms9gep/tramp/wm.mif" = true
    ∧ strUnder "/Users/bsms9gep/tramp" "/Users/bsms9gep/tramp/brainmask.mif" = true
    ∧ strUnder "/Users/bsms9gep/tramp" "/Users/bsms9gep/tramp/tracking.tck" = true := by
  refine ⟨rfl, rfl, rfl, ?_, rfl, rfl, rfl, rfl⟩
  intro h
  simp [dw_recon, cli, h]

/-- Witness for C9: at a concrete invocation with no options set, all
the recorded paths are the fixed ones under /Users/bsms9gep/tramp. -/
theorem C9_fixed_datasink_witness :
    (cli none none none none none none).results_base_directory = "/Users/bsms9gep/"
    ∧ (dw_recon (cli none none none none none none)).seed
        = some "/Users/bsms9gep/tramp/brainmask.mif" :=
  ⟨(C9_fixed_datasink none none none none none none).1,
   (C9_fixed_datasink none none none none none none).2.2.2.1 rfl⟩

/-- C10: the filter subcommand is a no-op: for every context state and
every value of its --tck option it performs no external call and leaves
the shared context object unchanged. -/
theorem C10_filter_noop (ctx : CliCtx) (tck : Option String) :
    tck_filter ctx tck = ctx := rfl
